import Mathlib

/-!
Verification development for the AI comic generator client.

The definitions below are a shallow embedding of the TypeScript sources:
`src/index.tsx` (the current client: generation pipeline plus sequential
playback) and the earlier grid-layout client variant (modelled in the `V0`
namespace). Remote calls are modelled by oracles giving the observable
response of each call; browser media elements are modelled by an explicit
set of live handles next to the application state.
-/

namespace ComicGen

/-- An encoded image payload as passed around the app: a base64 string plus its
MIME type (the shape produced by `fileToGenerativePart` and returned by the
generation calls in `src/index.tsx`). -/
structure GenImage where
  base64 : String
  mimeType : String
deriving DecidableEq

/-- One speech line of a storyboard panel (the `{who, text}` objects of the
JSON schema requested by `planStoryboard`). -/
structure SpeechLine where
  who : String
  text : String
deriving DecidableEq

/-- One storyboard panel (the `{id, prompt, speech}` objects of the JSON schema
requested by `planStoryboard`). -/
structure Panel where
  id : String
  prompt : String
  speech : List SpeechLine
deriving DecidableEq

/-- The storyboard plan (`{title, panels}`) returned by `planStoryboard`. -/
structure Storyboard where
  title : String
  panels : List Panel
deriving DecidableEq

/-- A playable audio handle as stored in `state.panelAudio`: either the literal
web-speech marker URL `webspeech://current` or an object URL for a fetched
audio blob; distinct blob URLs are modelled by a numeric identifier. -/
inductive AudioUrl where
  | webspeech
  | remote (id : Nat)
deriving DecidableEq

/-- The `step` field of `AppState` in `src/index.tsx`. -/
inductive AppStep where
  | input
  | character_preview
  | generating_comic
  | final_comic
deriving DecidableEq

/-- The `userInput` sub-object of `AppState` in `src/index.tsx`. -/
structure UserInput where
  drawing : Option GenImage
  story : String
  style : String
  panelCount : Nat
  selectedArtStyle : String
deriving DecidableEq

/-- The application state of `src/index.tsx` (the fields the generation
pipeline and the playback engine read or write; `currentAudio` holds the
numeric id of the `HTMLAudioElement` currently referenced by the state). -/
structure AppState where
  step : AppStep
  isLoading : Bool
  loadingMessage : String
  error : Option String
  userInput : UserInput
  characterCard : List GenImage
  storyboard : Option Storyboard
  panelImages : List (Option GenImage)
  panelAudio : List (Option AudioUrl)
  finalComicVideo : Option String
  currentPanel : Nat
  isPlaying : Bool
  currentAudio : Option Nat
  isWebSpeech : Bool
deriving DecidableEq

/-- `initState()` from `src/index.tsx`. -/
def initAppState : AppState where
  step := .input
  isLoading := false
  loadingMessage := ""
  error := none
  userInput :=
    { drawing := none
      story := ""
      style := "A vibrant and colorful cartoon with bold outlines."
      panelCount := 4
      selectedArtStyle := "disney" }
  characterCard := []
  storyboard := none
  panelImages := []
  panelAudio := []
  finalComicVideo := none
  currentPanel := 0
  isPlaying := false
  currentAudio := none
  isWebSpeech := false

/-- Outcome of the `fetch` issued by `generateAudio` to `/api/tts`, as observed
by the client: the fetch may reject (transport failure), resolve with a non-ok
status, resolve ok with a non-audio content type, or resolve with an audio blob
(whose created object URL is modelled by a numeric id). -/
inductive TtsResult where
  | transportFail
  | badStatus (status : Nat) (body : String)
  | nonAudio (preview : String)
  | audio (id : Nat)
deriving DecidableEq

/-- JS `String.prototype.trim` (strip leading and trailing whitespace), defined
over the character list of the string so that it evaluates by kernel
reduction. -/
def jsTrim (s : String) : String :=
  String.mk (((s.data.dropWhile Char.isWhitespace).reverse.dropWhile Char.isWhitespace).reverse)

/-- JS `String.prototype.toLowerCase`, defined over the character list of the
string so that it evaluates by kernel reduction. -/
def jsToLower (s : String) : String :=
  String.mk (s.data.map Char.toLower)

/-- The error message `generateAudio` builds for a non-ok `/api/tts` status. -/
def ttsStatusMessage (status : Nat) (body : String) : String :=
  "ElevenLabs API Error (" ++ toString status ++ "): " ++
    (if status = 429 then
      "Resource exhausted - you have reached your ElevenLabs API quota limit. Please check your account usage or upgrade your plan."
    else if status = 401 then
      "Authentication failed - please check your ElevenLabs API key permissions."
    else if status = 400 then
      "Bad request - the text might be too long or invalid."
    else if body = "" then "Unknown error occurred." else body)

/-- The `try` body of `generateAudio`: the object URL of the fetched audio blob,
or the thrown error message (non-ok status, or ok response that is not audio). -/
def generateAudioFetch (resp : TtsResult) : Except String Nat :=
  match resp with
  | .transportFail => .error "TypeError: Failed to fetch"
  | .badStatus status body => .error (ttsStatusMessage status body)
  | .nonAudio preview =>
    .error ("ElevenLabs API returned invalid audio response: " ++ preview.take 200)
  | .audio id => .ok id

/-- `generateAudio` from `src/index.tsx`: empty or whitespace-only text returns
`null` at once (no call is made); otherwise one `/api/tts` call is issued and
every failure of it is caught locally, falling back to the web-speech marker
when `speechSynthesis` is available (`speechAvail`) and to `null` otherwise.
The promise always resolves; no error escapes to the caller. -/
def generateAudio (text : String) (resp : TtsResult) (speechAvail : Bool) :
    Option AudioUrl :=
  if jsTrim text = "" then none
  else
    match generateAudioFetch resp with
    | .ok id => some (.remote id)
    | .error _ => if speechAvail then some .webspeech else none

/-- The three fixed pose descriptors of `generateCharacterCard`. -/
def poses : List String :=
  ["Front neutral pose on a plain white background",
   "3/4 smiling pose on a plain white background",
   "Action pose (jumping or running) on a plain white background"]

/-- `generateCharacterCard` from `src/index.tsx`: one generation call per entry
of `poses` (fanned out via `Promise.all`; `charResp i` is the inline image
payload of the i-th response, `none` when the response lacks one). Mapping over
the joined responses throws on the first response without an image payload, so
the call yields either all three images or the character-stage error. -/
def generateCharacterCard (charResp : Nat → Option GenImage) :
    Except String (List GenImage) :=
  ((List.range poses.length).map charResp).mapM fun r =>
    match r with
    | some img => Except.ok img
    | none => Except.error "API failed to return an image for the character card."

/-- `planStoryboard` from `src/index.tsx`, abstracted over the remote response:
`parsed` is the result of `JSON.parse(response.text)` (`none` when parsing
throws), and a parse failure is rethrown as the planning error. -/
def planStoryboard (parsed : Option Storyboard) : Except String Storyboard :=
  match parsed with
  | some sb => Except.ok sb
  | none =>
    Except.error "The AI failed to create a valid story plan. Please try a different story."

/-- JS array index assignment `arr[i] = v` on a copy of `arr` (the
`newPanelImages[i] = newImage` write of the illustration loop): indices below
the length overwrite, index = length appends, larger indices pad with holes
(read back as absent, modelled `none`). -/
def setSlot (l : List (Option α)) (i : Nat) (v : Option α) : List (Option α) :=
  if i < l.length then l.set i v
  else l ++ List.replicate (i - l.length) none ++ [v]

/-- Observable events of the illustration loop: the issuing of a `renderPanel`
request (panel index, its scene prompt, the conditioning character reference
images, the style) and the write of the returned image into `panelImages`
slot `index`. -/
inductive IllEvent where
  | call (index : Nat) (prompt : String) (refs : List GenImage) (style : String)
  | write (index : Nat)
deriving DecidableEq

/-- The `for` loop of `handlePlanAndRenderComic` over `storyboard.panels`:
panel `i` is rendered by one awaited `renderPanel` call conditioned on all of
`refs` plus the panel prompt and style (`panelResp i` is the image payload of
that call, `none` when the response has none, which throws); the result is
written into slot `i` of the images array before the next iteration starts.
Returns the final images array, the event trace, and whether the loop finished
without throwing. -/
def illustrateLoop (panelResp : Nat → Option GenImage) (refs : List GenImage)
    (style : String) :
    List Panel → Nat → List (Option GenImage) →
      List (Option GenImage) × List IllEvent × Bool
  | [], _, imgs => (imgs, [], true)
  | p :: rest, i, imgs =>
    match panelResp i with
    | none => (imgs, [.call i p.prompt refs style], false)
    | some img =>
      let r := illustrateLoop panelResp refs style rest (i + 1) (setSlot imgs i (some img))
      (r.1, .call i p.prompt refs style :: .write i :: r.2.1, r.2.2)

/-- JS `String.prototype.includes`, via `splitOn`: a pattern occurs in `s` iff
splitting `s` on it yields more than one part. -/
def jsIncludes (s pat : String) : Bool :=
  (s.splitOn pat).length != 1

/-- The error-classification block of `handlePlanAndRenderComic`'s `catch`. -/
def classifyError (msg : String) : String :=
  if jsIncludes msg "429" || jsIncludes msg "Resource has been exhausted" then
    if jsIncludes msg "ElevenLabs" then
      "🎙️ ElevenLabs API Error: Resource exhausted - you have reached your ElevenLabs API quota limit. Please check your account usage or upgrade your plan."
    else
      "🤖 Gemini API Error: Resource exhausted - you have reached your Gemini API quota limit. Please check your Google AI Studio account usage or try again later."
  else if jsIncludes msg "401" || jsIncludes msg "Authentication" then
    if jsIncludes msg "ElevenLabs" then
      "🎙️ ElevenLabs API Error: Authentication failed - please check your ElevenLabs API key permissions."
    else
      "🤖 Gemini API Error: Authentication failed - please check your Gemini API key."
  else if jsIncludes msg "ElevenLabs" then "🎙️ ElevenLabs API Error: " ++ msg
  else if jsIncludes msg "API failed to return" then "🤖 Gemini API Error: " ++ msg
  else "❌ Comic Generation Error: " ++ msg

/-- `panel.speech.map(s => s.text).join(' ')` — the text synthesized for one
panel's narration. -/
def panelTtsText (p : Panel) : String :=
  String.intercalate " " (p.speech.map SpeechLine.text)

/-- The constant result of `createComicVideo` in `src/index.tsx`. -/
def createComicVideo : String := "sequential-comic"

/-- Responses of the remote services for one generation run. Each call site is
keyed by its position (pose index for character synthesis, panel index for
illustration and narration), mirroring that each `fetch`/generation call is a
distinct awaited request. -/
structure Oracle where
  charResp : Nat → Option GenImage
  storyboardResp : Option Storyboard
  panelResp : Nat → Option GenImage
  tts : Nat → TtsResult
  speechAvailable : Bool

/-- `handlePlanAndRenderComic` from `src/index.tsx` as a state transformer:
pre-allocate `panelImages` to `userInput.panelCount` null slots and enter the
generating step; plan the storyboard; run the sequential illustration loop;
fan out narration over `storyboard.panels` (each `generateAudio` resolving,
never throwing); record the constant video marker and finish in `final_comic`.
Any thrown error is caught, classified and sent back to the `input` step. -/
def handlePlanAndRenderComic (s : AppState) (o : Oracle) : AppState :=
  let s0 := { s with
    isLoading := true
    loadingMessage := "Planning your epic story..."
    step := AppStep.generating_comic
    panelImages := List.replicate s.userInput.panelCount (none : Option GenImage) }
  match planStoryboard o.storyboardResp with
  | .error msg =>
    { s0 with isLoading := false, error := some (classifyError msg), step := AppStep.input }
  | .ok sb =>
    let s1 := { s0 with storyboard := some sb, loadingMessage := "Illustrating your comic..." }
    let r := illustrateLoop o.panelResp s1.characterCard s1.userInput.style sb.panels 0 s1.panelImages
    if r.2.2 then
      let s2 := { s1 with
        panelImages := r.1
        isLoading := true
        loadingMessage := "🎙️ Generating audio narration..." }
      let s3 := { s2 with panelAudio :=
        sb.panels.enum.map (fun (ip : Nat × Panel) =>
          generateAudio (panelTtsText ip.2) (o.tts ip.1) o.speechAvailable) }
      let s4 := { s3 with isLoading := true, loadingMessage := "🎬 Creating your comic video..." }
      { s4 with
        isLoading := false
        finalComicVideo := some createComicVideo
        step := AppStep.final_comic }
    else
      { s1 with
        panelImages := r.1
        isLoading := false
        error := some (classifyError "API failed to return a panel image.")
        step := AppStep.input }

/-- `handleStartGeneration` from `src/index.tsx`: clear the error, run character
synthesis; on success store the cards and continue into
`handlePlanAndRenderComic` (which catches its own errors); on failure return to
the `input` step carrying the raw error message. -/
def handleStartGeneration (s : AppState) (o : Oracle) : AppState :=
  let s0 := { s with isLoading := true, loadingMessage := "Creating your hero...", error := none }
  match generateCharacterCard o.charResp with
  | .ok cards => handlePlanAndRenderComic { s0 with isLoading := false, characterCard := cards } o
  | .error msg => { s0 with isLoading := false, error := some msg, step := AppStep.input }

end ComicGen

namespace ComicGen

/-- The browser-facing world around the application state: `st` is the global
`state` object; `liveRemote` lists the ids of `HTMLAudioElement`s currently
playing (created audios that have neither been paused nor ended); `liveSpeech`
counts utterances queued or speaking in the browser speech synthesizer;
`speechAvail` is whether `speechSynthesis` exists in `window`; `nextId` supplies
the id of the next created audio element. -/
structure World where
  st : AppState
  liveRemote : List Nat
  liveSpeech : Nat
  speechAvail : Bool
  nextId : Nat
deriving DecidableEq

/-- `state.storyboard?.panels?.[state.currentPanel]?.speech?.map(s => s.text).join(' ') || ''`
— the text spoken by the web-speech fallback for the current panel. -/
def currentSpeechText (s : AppState) : String :=
  match s.storyboard with
  | none => ""
  | some sb =>
    match sb.panels.get? s.currentPanel with
    | none => ""
    | some p => String.intercalate " " (p.speech.map SpeechLine.text)

/-- The `// Stop any current audio` block of `playCurrentPanelAudio`:
`state.currentAudio.pause(); state.currentAudio = null;` when a current audio
element is referenced. -/
def stopCurrent (w : World) : World :=
  match w.st.currentAudio with
  | some h =>
    { w with
      liveRemote := w.liveRemote.erase h
      st := { w.st with currentAudio := none } }
  | none => w

/-- `window.speechSynthesis.speak(utter)`: the utterance is queued; when the
queue was empty it starts at once and its `onstart` handler sets
`isPlaying = true, isWebSpeech = true`. -/
def speakUtterance (w : World) : World :=
  if w.liveSpeech = 0 then
    { w with liveSpeech := 1, st := { w.st with isPlaying := true, isWebSpeech := true } }
  else { w with liveSpeech := w.liveSpeech + 1 }

/-- `const audio = new Audio(audioUrl); state.currentAudio = audio; audio.play();`
for a playable (blob) URL: a fresh element is created, referenced by the state,
becomes live, and its `onplay` handler sets `isPlaying = true,
isWebSpeech = false`. -/
def startRemote (w : World) : World :=
  { w with
    st := { w.st with currentAudio := some w.nextId, isPlaying := true, isWebSpeech := false }
    liveRemote := w.nextId :: w.liveRemote
    nextId := w.nextId + 1 }

/-- The same creation for the non-playable `webspeech://current` URL (reached
when the web-speech branch falls through because `speechSynthesis` is missing
or the panel text is empty): the element is created and referenced but its
`play()` cannot start, so it never becomes live and `onplay` never fires. -/
def startDeadAudio (w : World) : World :=
  { w with
    st := { w.st with currentAudio := some w.nextId }
    nextId := w.nextId + 1 }

/-- `playCurrentPanelAudio` from `src/index.tsx`: nothing happens when the
current panel has no audio URL; otherwise any referenced audio element is
stopped first, then either a web-speech utterance is spoken (for the
`webspeech://` marker, given `speechSynthesis` and a non-empty text) or a new
audio element is created and played. -/
def playCurrentPanelAudio (w : World) : World :=
  match w.st.panelAudio.getD w.st.currentPanel none with
  | none => w
  | some .webspeech =>
    if (stopCurrent w).speechAvail && currentSpeechText (stopCurrent w).st != "" then
      speakUtterance (stopCurrent w)
    else startDeadAudio (stopCurrent w)
  | some (.remote _) => startRemote (stopCurrent w)

/-- `pauseAudio` from `src/index.tsx`: cancel the speech synthesizer when the
state says web speech is playing; then, only when an audio element is
referenced, pause it and clear `isPlaying` and `currentAudio`. The speech
cancel (`window.speechSynthesis.cancel()`) empties the synthesizer queue. -/
def cancelSpeech (w : World) : World :=
  if w.st.isWebSpeech && w.speechAvail then { w with liveSpeech := 0 } else w

/-- `pauseAudio` continued: after the possible cancel, only when an audio
element is referenced, pause it and clear `isPlaying` and `currentAudio`
(cancelling speech does not change `currentAudio`, so the reference check reads
the original state). -/
def pauseAudio (w : World) : World :=
  match w.st.currentAudio with
  | some h =>
    { cancelSpeech w with
      liveRemote := (cancelSpeech w).liveRemote.erase h
      st := { (cancelSpeech w).st with isPlaying := false, currentAudio := none } }
  | none => cancelSpeech w

/-- `toggleAudio` from `src/index.tsx`. -/
def toggleAudio (w : World) : World :=
  if w.st.isPlaying then pauseAudio w else playCurrentPanelAudio w

/-- The stop block shared by `nextPanel` and `previousPanel`:
`if (state.currentAudio) { state.currentAudio.pause(); setState({ isPlaying: false, currentAudio: null }); }`. -/
def stopForNav (w : World) : World :=
  match w.st.currentAudio with
  | some h =>
    { w with
      liveRemote := w.liveRemote.erase h
      st := { w.st with isPlaying := false, currentAudio := none } }
  | none => w

/-- `nextPanel` from `src/index.tsx`: guarded by
`currentPanel < panelImages.length - 1`; remembers whether playback was active,
stops the referenced audio element, moves to the next panel and, if playback
was active, immediately starts the new panel's audio. `setPanel` is the
`setState({ currentPanel: ... })` write. -/
def setPanel (w : World) (i : Nat) : World :=
  { w with st := { w.st with currentPanel := i } }

/-- `nextPanel` from `src/index.tsx` (see the doc comment above): the guard,
the remembered `wasPlaying`, the stop, the move, the conditional restart. -/
def nextPanel (w : World) : World :=
  if w.st.currentPanel < w.st.panelImages.length - 1 then
    if w.st.isPlaying then
      playCurrentPanelAudio (setPanel (stopForNav w) (w.st.currentPanel + 1))
    else setPanel (stopForNav w) (w.st.currentPanel + 1)
  else w

/-- `previousPanel` from `src/index.tsx`, symmetric to `nextPanel`. -/
def previousPanel (w : World) : World :=
  if 0 < w.st.currentPanel then
    if w.st.isPlaying then
      playCurrentPanelAudio (setPanel (stopForNav w) (w.st.currentPanel - 1))
    else setPanel (stopForNav w) (w.st.currentPanel - 1)
  else w

/-- `advanceToNextPanelAndPlay` from `src/index.tsx` (its synchronous part):
clear `currentAudio`; when a next audio slot exists move to it (the actual
`playCurrentPanelAudio` runs 150ms later from a timer, modelled as a separate
step); when none exists set `isPlaying = false` and stop. -/
def advanceToNextPanelAndPlay (w : World) : World :=
  if w.st.currentPanel < w.st.panelAudio.length - 1 then
    { w with st := { w.st with currentAudio := none, currentPanel := w.st.currentPanel + 1 } }
  else
    { w with st := { w.st with currentAudio := none, isPlaying := false } }

/-- Natural completion of the playing audio element `h`: it leaves the live set
and its `onended` handler (`advanceToNextPanelAndPlay`) runs. -/
def audioEnded (w : World) (h : Nat) : World :=
  advanceToNextPanelAndPlay { w with liveRemote := w.liveRemote.erase h }

/-- The `onerror` handler of the referenced audio element: the element stops
and `setState({ isPlaying: false, currentAudio: null })` runs. -/
def audioErrored (w : World) : World :=
  match w.st.currentAudio with
  | some h =>
    { w with
      liveRemote := w.liveRemote.erase h
      st := { w.st with isPlaying := false, currentAudio := none } }
  | none => { w with st := { w.st with isPlaying := false, currentAudio := none } }

/-- Natural completion of a speech utterance: it leaves the synthesizer, its
`onend` handler clears the flags and runs `advanceToNextPanelAndPlay`. -/
def speechEnded (w : World) : World :=
  advanceToNextPanelAndPlay
    { w with
      liveSpeech := w.liveSpeech - 1
      st := { w.st with isPlaying := false, isWebSpeech := false } }

/-- `replayFullStory` from `src/index.tsx` (its synchronous part): pause the
referenced audio element (without clearing the reference first), reset to panel
0 not playing with no referenced audio; the delayed `playCurrentPanelAudio`
runs from a timer, modelled as a separate step. -/
def replayFullStory (w : World) : World :=
  match w.st.currentAudio with
  | some h =>
    { w with
      liveRemote := w.liveRemote.erase h
      st := { w.st with currentPanel := 0, isPlaying := false, currentAudio := none } }
  | none =>
    { w with st := { w.st with currentPanel := 0, isPlaying := false, currentAudio := none } }

/-- The `Start a New Comic` click handler of `renderFinalComicView`:
`initState(); render();` — the state object is replaced by a fresh initial
state. No pause, stop or cancel is issued on the live media resources; they are
only dereferenced. -/
def startOverClick (w : World) : World :=
  { w with st := initAppState }

/-- Number of simultaneously active audio handles: playing audio elements plus
utterances held by the speech synthesizer. -/
def activeHandles (w : World) : Nat :=
  w.liveRemote.length + w.liveSpeech

end ComicGen

namespace ComicGen.V0

/-- The application state of the earlier grid-layout client variant (the
`AppState` interface of that file; `finalComicImage` replaces the video
marker). -/
structure AppState where
  step : AppStep
  isLoading : Bool
  loadingMessage : String
  error : Option String
  characterCard : List GenImage
  storyboard : Option Storyboard
  panelImages : List (Option GenImage)
  panelAudio : List (Option AudioUrl)
  finalComicImage : Option GenImage
  panelCount : Nat
  story : String
  style : String
deriving DecidableEq

/-- `initState()` of the grid-layout variant. -/
def initAppState : AppState where
  step := .input
  isLoading := false
  loadingMessage := ""
  error := none
  characterCard := []
  storyboard := none
  panelImages := []
  panelAudio := []
  finalComicImage := none
  panelCount := 4
  story := "A hero dog flies in to save a cat stuck in a tree."
  style := "A vibrant and colorful cartoon with bold outlines."

/-- Outcome of the `/api/tts` fetch in the grid-layout variant: that
`generateAudio` returns `null` on a JSON (degraded-notice) response, an object
URL on an audio blob, and `null` on any caught error. -/
inductive TtsResult where
  | transportFail
  | badStatus (status : Nat)
  | jsonNotice
  | audioBlob (id : Nat)
deriving DecidableEq

/-- `generateAudio` of the grid-layout variant: empty text short-circuits to
`null`; a JSON response or any caught failure yields `null`; an audio blob
yields its object URL. No web-speech fallback exists in this variant. -/
def generateAudio (text : String) (resp : TtsResult) : Option AudioUrl :=
  if jsTrim text = "" then none
  else
    match resp with
    | .audioBlob id => some (.remote id)
    | _ => none

/-- Outcome of the `/api/grid` fetch consumed by `generateComicLayout`. -/
inductive GridResult where
  | badStatus (status : Nat)
  | noImage
  | ok (url : String)
deriving DecidableEq

/-- `generateComicLayout` of the grid-layout variant: throws `Fal grid <status>`
on a non-ok response, `No grid image returned` when the JSON has no image URL,
and otherwise decodes the data URL (`url.split(',')[1] || ''`). -/
def generateComicLayout (resp : GridResult) : Except String GenImage :=
  match resp with
  | .badStatus status => Except.error ("Fal grid " ++ toString status)
  | .noImage => Except.error "No grid image returned"
  | .ok url => Except.ok { base64 := (url.splitOn ",").getD 1 "", mimeType := "image/png" }

/-- The caption lookup of the layout step:
`storyboard.panels[i].speech.find(s => s.who.toLowerCase() === 'narrator')?.text || ''`;
reading `panels[i]` off the end of the storyboard throws a `TypeError`. -/
def captionOf (sb : Storyboard) (i : Nat) : Except String String :=
  match sb.panels.get? i with
  | none => Except.error "TypeError: Cannot read properties of undefined"
  | some p =>
    Except.ok (((p.speech.find? fun l => jsToLower l.who == "narrator").map SpeechLine.text).getD "")

/-- Remote responses for one run of the grid-layout variant. -/
structure Oracle where
  storyboardResp : Option Storyboard
  panelResp : Nat → Option GenImage
  tts : Nat → TtsResult
  grid : GridResult

/-- The `catch` of the grid-layout `handlePlanAndRenderComic`: every thrown
error — including a failed layout call — lands here and sends the run back to
the `input` step with the raw message. -/
def catchState (s : AppState) (msg : String) : AppState :=
  { s with isLoading := false, error := some msg, step := AppStep.input }

/-- `handlePlanAndRenderComic` of the grid-layout variant: pre-allocate
`panelImages`, plan, illustrate sequentially, fan out narration, build the
caption list over `panelImages`, then call `generateComicLayout`; on layout
success store `finalComicImage` and reach `final_comic`, while any thrown
error (the layout call included) is caught by `catchState`. -/
def handlePlanAndRenderComic (s : AppState) (o : Oracle) : AppState :=
  let s0 := { s with
    isLoading := true
    loadingMessage := "Planning your epic story..."
    step := AppStep.generating_comic
    panelImages := List.replicate s.panelCount (none : Option GenImage) }
  match planStoryboard o.storyboardResp with
  | .error msg => catchState s0 msg
  | .ok sb =>
    let s1 := { s0 with storyboard := some sb, loadingMessage := "Illustrating your comic..." }
    let r := illustrateLoop o.panelResp s1.characterCard s1.style sb.panels 0 s1.panelImages
    if r.2.2 then
      let s2 := { s1 with
        panelImages := r.1
        isLoading := true
        loadingMessage := "🎙️ Generating audio narration..." }
      let s3 := { s2 with panelAudio :=
        sb.panels.enum.map (fun (ip : Nat × Panel) =>
          generateAudio (panelTtsText ip.2) (o.tts ip.1)) }
      let s4 := { s3 with isLoading := true, loadingMessage := "🎨 Assembling final comic strip..." }
      match (List.range s4.panelImages.length).mapM (fun i => captionOf sb i) with
      | .error msg => catchState s4 msg
      | .ok _captions =>
        match generateComicLayout o.grid with
        | .ok img =>
          { s4 with isLoading := false, finalComicImage := some img, step := AppStep.final_comic }
        | .error msg => catchState s4 msg
    else
      catchState { s1 with panelImages := r.1 } "API failed to return a panel image."

end ComicGen.V0

namespace ComicGen

/-- One step of the playback engine: a user operation (the play/pause toggle,
a direct play such as the auto-start of the final view or a scheduled timer
play, pause, next, previous, replay) or a media event (natural completion of
the playing audio element or of the speaking utterance, an element error). -/
inductive PbStep : World → World → Prop
  | toggle (w : World) : PbStep w (toggleAudio w)
  | play (w : World) : PbStep w (playCurrentPanelAudio w)
  | pause (w : World) : PbStep w (pauseAudio w)
  | next (w : World) : PbStep w (nextPanel w)
  | prev (w : World) : PbStep w (previousPanel w)
  | replay (w : World) : PbStep w (replayFullStory w)
  | ended (w : World) (h : Nat) (hmem : h ∈ w.liveRemote) : PbStep w (audioEnded w h)
  | errored (w : World) : PbStep w (audioErrored w)
  | utterEnded (w : World) (hpos : 0 < w.liveSpeech) : PbStep w (speechEnded w)

/-- States reachable from `w0` by playback steps. -/
inductive PbReachable (w0 : World) : World → Prop
  | refl : PbReachable w0 w0
  | tail {w w' : World} : PbReachable w0 w → PbStep w w' → PbReachable w0 w'

/-- No slot of `panelAudio` holds the web-speech marker (every narrated panel
got a remote object URL). -/
abbrev NoWebAudio (s : AppState) : Prop :=
  ∀ a ∈ s.panelAudio, a ≠ some AudioUrl.webspeech

/-- At most one audio element is live, and a live element is always the one
referenced by `state.currentAudio`. -/
abbrev ExclusiveAudio (w : World) : Prop :=
  w.liveRemote.length ≤ 1 ∧ ∀ g ∈ w.liveRemote, w.st.currentAudio = some g

/-- Playback invariant of the amended concurrency claim: the run uses no
web-speech fallback handles, the speech synthesizer is idle, and audio
elements obey exclusive ownership. -/
abbrev PbInv (w : World) : Prop :=
  NoWebAudio w.st ∧ w.liveSpeech = 0 ∧ ExclusiveAudio w

/-- A character-card image used in the concrete runs below. -/
def imgC : GenImage := { base64 := "c", mimeType := "image/png" }

/-- A panel illustration used in the concrete runs below. -/
def imgP : GenImage := { base64 := "p", mimeType := "image/png" }

/-- A one-line narrator speech entry. -/
def narLine (t : String) : SpeechLine := { who := "Narrator", text := t }

/-- A storyboard panel with one narrator line. -/
def mkPanel (n t : String) : Panel := { id := n, prompt := "scene " ++ n, speech := [narLine t] }

/-- A two-panel storyboard. -/
def sbTwo : Storyboard := { title := "T", panels := [mkPanel "p1" "one", mkPanel "p2" "two"] }

/-- A three-panel storyboard. -/
def sbThree : Storyboard :=
  { title := "T", panels := [mkPanel "p1" "one", mkPanel "p2" "two", mkPanel "p3" "three"] }

/-- A four-panel storyboard. -/
def sbFour : Storyboard :=
  { title := "T"
    panels := [mkPanel "p1" "one", mkPanel "p2" "two", mkPanel "p3" "three", mkPanel "p4" "four"] }

/-- The initial state after a successful character stage (three stored
reference images). -/
def stWithCards : AppState := { initAppState with characterCard := [imgC, imgC, imgC] }

/-- Run where narration succeeds except for the middle panel (its `/api/tts`
returns HTTP 500 and `speechSynthesis` is unavailable, so its slot is null). -/
def oNullSlot : Oracle where
  charResp := fun _ => some imgC
  storyboardResp := some sbThree
  panelResp := fun _ => some imgP
  tts := fun i => if i = 1 then .badStatus 500 "" else .audio (10 + i)
  speechAvailable := false

/-- Run where narration for panel 0 fails over to the web-speech marker
(HTTP 500 with `speechSynthesis` available) and panel 1 gets a remote URL. -/
def oMixedSpeech : Oracle where
  charResp := fun _ => some imgC
  storyboardResp := some sbTwo
  panelResp := fun _ => some imgP
  tts := fun i => if i = 0 then .badStatus 500 "" else .audio 20
  speechAvailable := true

/-- Run whose planning step returns three panels against a requested panel
count of four; everything else succeeds. -/
def oShortPlan : Oracle where
  charResp := fun _ => some imgC
  storyboardResp := some sbThree
  panelResp := fun _ => some imgP
  tts := fun _ => .audio 7
  speechAvailable := true

/-- Run whose storyboard response cannot be parsed as JSON. -/
def oPlanFail : Oracle where
  charResp := fun _ => some imgC
  storyboardResp := none
  panelResp := fun _ => none
  tts := fun _ => .badStatus 500 ""
  speechAvailable := false

/-- Run whose second character pose call returns no image payload. -/
def oCharFail : Oracle where
  charResp := fun i => if i = 1 then none else some imgC
  storyboardResp := some sbFour
  panelResp := fun _ => some imgP
  tts := fun _ => .audio 7
  speechAvailable := true

/-- Run where everything succeeds (four panels, four narrations). -/
def oAllGood : Oracle where
  charResp := fun _ => some imgC
  storyboardResp := some sbFour
  panelResp := fun _ => some imgP
  tts := fun i => .audio (40 + i)
  speechAvailable := true

/-- The world at the final view of the `oNullSlot` run, before the auto-start:
`panelAudio = [some (remote 10), none, some (remote 12)]`. -/
def wNullSlot : World where
  st := handlePlanAndRenderComic stWithCards oNullSlot
  liveRemote := []
  liveSpeech := 0
  speechAvail := false
  nextId := 0

/-- The world at the final view of the `oMixedSpeech` run:
`panelAudio = [some webspeech, some (remote 20)]`. -/
def wMixedSpeech : World where
  st := handlePlanAndRenderComic stWithCards oMixedSpeech
  liveRemote := []
  liveSpeech := 0
  speechAvail := true
  nextId := 0

/-- The `wMixedSpeech` world after pressing play: the web-speech utterance for
panel 0 is speaking. -/
def wSpeaking : World := toggleAudio wMixedSpeech

/-- The world at the final view of the all-success run, before the auto-start. -/
def wAllGood : World where
  st := handlePlanAndRenderComic stWithCards oAllGood
  liveRemote := []
  liveSpeech := 0
  speechAvail := true
  nextId := 0

/-- A final-view world in which audio element 5 is playing panel 0. -/
def wPlaying : World where
  st := { handlePlanAndRenderComic stWithCards oAllGood with
    isPlaying := true
    currentAudio := some 5 }
  liveRemote := [5]
  liveSpeech := 0
  speechAvail := true
  nextId := 6

end ComicGen

namespace ComicGen.V0

/-- The grid-layout-variant state after a successful character stage. -/
def stWithCards : AppState := { initAppState with characterCard := [imgC, imgC, imgC] }

/-- Grid-layout-variant run where planning, all four panels and all narration
succeed but the `/api/grid` layout call returns HTTP 500. -/
def oGridFail : Oracle where
  storyboardResp := some sbFour
  panelResp := fun _ => some imgP
  tts := fun _ => .audioBlob 30
  grid := .badStatus 500

end ComicGen.V0

namespace ComicGen

/-! ## General lemmas about the pipeline -/

theorem setSlot_length (l : List (Option GenImage)) (i : Nat) (v : Option GenImage)
    (h : i ≤ l.length) :
    (setSlot l i v).length = max l.length (i + 1) := by
  unfold setSlot
  rcases Nat.lt_or_ge i l.length with hlt | hge
  · rw [if_pos hlt, List.length_set]
    omega
  · have he : i = l.length := le_antisymm h hge
    subst he
    rw [if_neg (lt_irrefl _)]
    simp

theorem illustrateLoop_ok_length (panelResp : Nat → Option GenImage)
    (refs : List GenImage) (style : String) :
    ∀ (panels : List Panel) (i : Nat) (imgs : List (Option GenImage)),
      (∀ j, (panelResp j).isSome) → i ≤ imgs.length →
      (illustrateLoop panelResp refs style panels i imgs).2.2 = true ∧
      (illustrateLoop panelResp refs style panels i imgs).1.length =
        max imgs.length (i + panels.length) := by
  intro panels
  induction panels with
  | nil =>
    intro i imgs _ hi
    refine ⟨rfl, ?_⟩
    show imgs.length = max imgs.length (i + 0)
    omega
  | cons p rest ih =>
    intro i imgs hall hi
    obtain ⟨img, himg⟩ := Option.isSome_iff_exists.mp (hall i)
    have hlen := setSlot_length imgs i (some img) hi
    have hle : i + 1 ≤ (setSlot imgs i (some img)).length := by omega
    obtain ⟨hok, hl⟩ := ih (i + 1) (setSlot imgs i (some img)) hall hle
    constructor
    · simp only [illustrateLoop, himg]
      exact hok
    · simp only [illustrateLoop, himg, List.length_cons]
      rw [hl, hlen]
      omega

theorem generateCharacterCard_eq (charResp : Nat → Option GenImage) :
    generateCharacterCard charResp =
      match charResp 0, charResp 1, charResp 2 with
      | some i1, some i2, some i3 => Except.ok [i1, i2, i3]
      | _, _, _ => Except.error "API failed to return an image for the character card." := by
  have e : (List.range poses.length).map charResp = [charResp 0, charResp 1, charResp 2] := rfl
  unfold generateCharacterCard
  rw [e]
  rcases h0 : charResp 0 with _ | i0 <;> rcases h1 : charResp 1 with _ | i1 <;>
    rcases h2 : charResp 2 with _ | i2 <;> rfl

/-! ## C7 — narration synthesis never raises -/

/-- C7: for every input text, `generateAudio` returns `null` for empty or
whitespace-only text without issuing a call; otherwise a response carrying an
audio payload yields its object URL, while every failing outcome of the single
remote call (transport failure, non-ok status, non-audio body) is absorbed
locally: the call resolves to the on-device web-speech handle when
`speechSynthesis` is available and to `null` otherwise. The operation is a
total function into `Option AudioUrl` — no error propagates to the
orchestrator. -/
theorem generateAudio_never_throws (text : String) (resp : TtsResult) (speechAvail : Bool) :
    generateAudio text resp speechAvail =
      if jsTrim text = "" then none
      else
        match resp with
        | .audio id => some (.remote id)
        | _ => if speechAvail then some .webspeech else none := by
  unfold generateAudio generateAudioFetch
  cases resp <;> rfl

/-! ## C4 — character synthesis is atomic -/

/-- C4: `generateCharacterCard` issues one call per entry of the three-element
`poses` list; it returns exactly the three images when all three responses
carry an image payload and fails with the character-stage error when any
response lacks one — never a partial list. On that failure
`handleStartGeneration` returns to the `input` step carrying the error, with
`characterCard`, `storyboard`, `panelImages` and `panelAudio` left untouched
(no partial state stored). -/
theorem characterCard_atomic (s : AppState) (o : Oracle) (msg : String)
    (hfail : generateCharacterCard o.charResp = Except.error msg) :
    poses.length = 3 ∧
    (∀ (charResp : Nat → Option GenImage) (i1 i2 i3 : GenImage),
      charResp 0 = some i1 → charResp 1 = some i2 → charResp 2 = some i3 →
      generateCharacterCard charResp = Except.ok [i1, i2, i3]) ∧
    (∀ charResp : Nat → Option GenImage,
      (charResp 0 = none ∨ charResp 1 = none ∨ charResp 2 = none) →
      generateCharacterCard charResp =
        Except.error "API failed to return an image for the character card.") ∧
    ((handleStartGeneration s o).step = AppStep.input ∧
      (handleStartGeneration s o).error = some msg ∧
      (handleStartGeneration s o).characterCard = s.characterCard ∧
      (handleStartGeneration s o).storyboard = s.storyboard ∧
      (handleStartGeneration s o).panelImages = s.panelImages ∧
      (handleStartGeneration s o).panelAudio = s.panelAudio) := by
  refine ⟨rfl, ?_, ?_, ?_⟩
  · intro charResp i1 i2 i3 h0 h1 h2
    rw [generateCharacterCard_eq, h0, h1, h2]
  · intro charResp hnone
    rw [generateCharacterCard_eq]
    rcases h0 : charResp 0 with _ | i0 <;> rcases h1 : charResp 1 with _ | i1 <;>
      rcases h2 : charResp 2 with _ | i2 <;> simp_all
  · unfold handleStartGeneration
    rw [hfail]
    exact ⟨rfl, rfl, rfl, rfl, rfl, rfl⟩

/-- Witness for C4: the `oCharFail` run (second pose response lacks an image)
fails atomically and returns to input with no character references stored. -/
theorem characterCard_atomic_witness :
    generateCharacterCard oCharFail.charResp =
      Except.error "API failed to return an image for the character card." ∧
    (handleStartGeneration initAppState oCharFail).step = AppStep.input ∧
    (handleStartGeneration initAppState oCharFail).characterCard = initAppState.characterCard :=
  ⟨by rw [generateCharacterCard_eq]; rfl,
   (characterCard_atomic initAppState oCharFail _ (by rw [generateCharacterCard_eq]; rfl)).2.2.2.1,
   (characterCard_atomic initAppState oCharFail _
     (by rw [generateCharacterCard_eq]; rfl)).2.2.2.2.2.1⟩

/-! ## C5 — planning failure -/

/-- C5 counterexample: with the default panel count 4 and a storyboard response
that fails to parse, the run returns to `input` with an error but
`panelImages` does NOT remain unset: it was already pre-allocated to four null
slots before the planning call, so it differs from its initial empty value. -/
theorem planning_failure_preallocates_counterexample :
    (handlePlanAndRenderComic initAppState oPlanFail).step = AppStep.input ∧
    (handlePlanAndRenderComic initAppState oPlanFail).error.isSome = true ∧
    (handlePlanAndRenderComic initAppState oPlanFail).panelImages = [none, none, none, none] ∧
    (handlePlanAndRenderComic initAppState oPlanFail).panelImages ≠ initAppState.panelImages := by
  decide

/-- C5 (amended): when the storyboard response cannot be parsed the run fails
with the planning error and returns to the `input` step, but `panelImages` has
already been pre-allocated — at the start of `handlePlanAndRenderComic`,
before the planning call — to `userInput.panelCount` null slots (not to
`storyboard.panels.length`, and not only on storyboard success); `storyboard`
and `panelAudio` are untouched. -/
theorem planning_failure_state (s : AppState) (o : Oracle)
    (hfail : o.storyboardResp = none) :
    (handlePlanAndRenderComic s o).step = AppStep.input ∧
    (handlePlanAndRenderComic s o).error =
      some (classifyError "The AI failed to create a valid story plan. Please try a different story.") ∧
    (handlePlanAndRenderComic s o).panelImages =
      List.replicate s.userInput.panelCount none ∧
    (handlePlanAndRenderComic s o).storyboard = s.storyboard ∧
    (handlePlanAndRenderComic s o).panelAudio = s.panelAudio := by
  unfold handlePlanAndRenderComic planStoryboard
  rw [hfail]
  exact ⟨rfl, rfl, rfl, rfl, rfl⟩

/-- Witness for C5: the amended statement at the concrete failing run. -/
theorem planning_failure_witness :
    oPlanFail.storyboardResp = none ∧
    ((handlePlanAndRenderComic initAppState oPlanFail).step = AppStep.input ∧
      (handlePlanAndRenderComic initAppState oPlanFail).error =
        some (classifyError "The AI failed to create a valid story plan. Please try a different story.") ∧
      (handlePlanAndRenderComic initAppState oPlanFail).panelImages =
        List.replicate initAppState.userInput.panelCount none ∧
      (handlePlanAndRenderComic initAppState oPlanFail).storyboard = initAppState.storyboard ∧
      (handlePlanAndRenderComic initAppState oPlanFail).panelAudio = initAppState.panelAudio) :=
  ⟨rfl, planning_failure_state initAppState oPlanFail rfl⟩

/-! ## C3 — length invariant -/

/-- C3 counterexample: a completed run whose planning step returned three
panels against a requested panel count of four ends in the terminal
presentation state with `panelImages.length = 4` but `panelAudio.length =
storyboard.panels.length = 3` — the claimed equality fails. -/
theorem length_invariant_counterexample :
    (handlePlanAndRenderComic stWithCards oShortPlan).storyboard = some sbThree ∧
    sbThree.panels.length = 3 ∧
    (handlePlanAndRenderComic stWithCards oShortPlan).step = AppStep.final_comic ∧
    (handlePlanAndRenderComic stWithCards oShortPlan).panelImages.length = 4 ∧
    (handlePlanAndRenderComic stWithCards oShortPlan).panelAudio.length = 3 ∧
    (handlePlanAndRenderComic stWithCards oShortPlan).panelImages.length ≠
      (handlePlanAndRenderComic stWithCards oShortPlan).panelAudio.length := by
  decide

/-- C3 (amended): for every run whose planning succeeds and whose panel calls
all return images, the terminal state satisfies `panelAudio.length =
storyboard.panels.length` and `panelImages.length = max userInput.panelCount
storyboard.panels.length`; the claimed three-way equality therefore holds
exactly when the storyboard returns at least `userInput.panelCount` panels.
(It also does not hold at every instant `storyboard` is non-null:
`panelAudio` stays empty until narration completes.) -/
theorem completed_run_lengths (s : AppState) (o : Oracle) (sb : Storyboard)
    (hsb : o.storyboardResp = some sb)
    (hall : ∀ j, (o.panelResp j).isSome) :
    (handlePlanAndRenderComic s o).step = AppStep.final_comic ∧
    (handlePlanAndRenderComic s o).storyboard = some sb ∧
    (handlePlanAndRenderComic s o).panelAudio.length = sb.panels.length ∧
    (handlePlanAndRenderComic s o).panelImages.length =
      max s.userInput.panelCount sb.panels.length ∧
    ((handlePlanAndRenderComic s o).panelImages.length =
        (handlePlanAndRenderComic s o).panelAudio.length ↔
      s.userInput.panelCount ≤ sb.panels.length) := by
  obtain ⟨hok, hlen⟩ := illustrateLoop_ok_length o.panelResp s.characterCard s.userInput.style
    sb.panels 0 (List.replicate s.userInput.panelCount (none : Option GenImage)) hall (Nat.zero_le _)
  simp only [handlePlanAndRenderComic, planStoryboard, hsb]
  simp only [hok, if_true]
  simp only [List.length_replicate, Nat.zero_add] at hlen
  refine ⟨by trivial, by trivial, ?_, ?_, ?_⟩
  · simp [List.enum_length]
  · simpa using hlen
  · simp only [List.length_map, List.enum_length]
    rw [hlen]
    constructor
    · intro he
      omega
    · intro hge
      omega

/-- Witness for C3: the amended statement at the `oShortPlan` run (three
planned panels, requested count four). -/
theorem completed_run_lengths_witness :
    oShortPlan.storyboardResp = some sbThree ∧ (∀ j, (oShortPlan.panelResp j).isSome) ∧
    ((handlePlanAndRenderComic stWithCards oShortPlan).step = AppStep.final_comic ∧
      (handlePlanAndRenderComic stWithCards oShortPlan).storyboard = some sbThree ∧
      (handlePlanAndRenderComic stWithCards oShortPlan).panelAudio.length = sbThree.panels.length ∧
      (handlePlanAndRenderComic stWithCards oShortPlan).panelImages.length =
        max stWithCards.userInput.panelCount sbThree.panels.length ∧
      ((handlePlanAndRenderComic stWithCards oShortPlan).panelImages.length =
          (handlePlanAndRenderComic stWithCards oShortPlan).panelAudio.length ↔
        stWithCards.userInput.panelCount ≤ sbThree.panels.length)) :=
  ⟨rfl, fun _ => rfl, completed_run_lengths stWithCards oShortPlan sbThree rfl (fun _ => rfl)⟩

/-! ## C8 — illustration is sequential and ordered -/

/-- C8: the illustration loop is strictly sequential and ordered by panel
index: its event trace is exactly, for the panels from index `i` upward in
order, a `renderPanel` call for index `k` — conditioned on the full character
reference list `refs` plus the panel scene prompt and the style — followed by
the write of slot `k`, before the call for index `k + 1` is issued. No calls
are reordered or concurrent, and every call carries all of `refs`
(`handlePlanAndRenderComic` passes `state.characterCard`, which holds the
three reference images, and starts the loop at index 0). -/
theorem illustration_sequential (panelResp : Nat → Option GenImage)
    (refs : List GenImage) (style : String) :
    ∀ (panels : List Panel) (i : Nat) (imgs : List (Option GenImage)),
      (∀ j, (panelResp j).isSome) →
      (illustrateLoop panelResp refs style panels i imgs).2.1 =
        (panels.enumFrom i).flatMap
          (fun ip => [IllEvent.call ip.1 ip.2.prompt refs style, IllEvent.write ip.1]) := by
  intro panels
  induction panels with
  | nil => intro i imgs _; rfl
  | cons p rest ih =>
    intro i imgs hall
    obtain ⟨img, himg⟩ := Option.isSome_iff_exists.mp (hall i)
    simp only [illustrateLoop, himg, List.enumFrom, List.flatMap_cons]
    rw [ih (i + 1) (setSlot imgs i (some img)) hall]
    rfl

/-- Witness for C8: the trace of the three-panel loop with three reference
images, computed concretely. -/
theorem illustration_sequential_witness :
    (∀ j, (oShortPlan.panelResp j).isSome) ∧
    (illustrateLoop oShortPlan.panelResp [imgC, imgC, imgC] "sty" sbThree.panels 0
        [none, none, none]).2.1 =
      (sbThree.panels.enumFrom 0).flatMap
        (fun ip => [IllEvent.call ip.1 ip.2.prompt [imgC, imgC, imgC] "sty", IllEvent.write ip.1]) :=
  ⟨fun _ => rfl,
   illustration_sequential oShortPlan.panelResp [imgC, imgC, imgC] "sty" sbThree.panels 0
     [none, none, none] (fun _ => rfl)⟩

/-! ## C9 — pause -/

/-- C9 counterexample: in the reachable state where the web-speech fallback
utterance of panel 0 is speaking (the `oMixedSpeech` run after pressing play),
a single `pauseAudio()` cancels the utterance but does NOT set the playing
flag to false — `currentAudio` is null, so the flag-clearing branch is
skipped, refuting that one `pause()` always stops the handle AND sets
`playing = false`. -/
theorem pause_webspeech_counterexample :
    wSpeaking.st.isWebSpeech = true ∧ wSpeaking.st.isPlaying = true ∧
    wSpeaking.liveSpeech = 1 ∧ wSpeaking.st.currentAudio = none ∧
    (pauseAudio wSpeaking).liveSpeech = 0 ∧
    (pauseAudio wSpeaking).st.isPlaying = true := by
  decide

theorem pauseAudio_idem (v : World) : pauseAudio (pauseAudio v) = pauseAudio v := by
  unfold pauseAudio cancelSpeech
  rcases hca : v.st.currentAudio with _ | g <;>
    cases hb : (v.st.isWebSpeech && v.speechAvail) <;>
    simp [hca, hb]

/-- C9 (amended): `pauseAudio()` is idempotent on every playback state —
calling it twice equals calling it once. When the active handle is a remote
audio element (no web speech), one call stops the element, sets
`playing = false`, clears the reference and retains the current panel index
and the audio slots; but when only a web-speech utterance is active the call
cancels the utterance while leaving `isPlaying` unchanged (see the
counterexample). -/
theorem pauseAudio_idempotent_effect (w : World) (h : Nat)
    (hws : w.st.isWebSpeech = false)
    (hca : w.st.currentAudio = some h)
    (hexc : w.liveRemote = [h]) :
    (∀ v : World, pauseAudio (pauseAudio v) = pauseAudio v) ∧
    (pauseAudio w).st.isPlaying = false ∧
    (pauseAudio w).st.currentAudio = none ∧
    (pauseAudio w).liveRemote = [] ∧
    (pauseAudio w).st.currentPanel = w.st.currentPanel ∧
    (pauseAudio w).st.panelAudio = w.st.panelAudio := by
  refine ⟨pauseAudio_idem, ?_, ?_, ?_, ?_, ?_⟩ <;>
    simp [pauseAudio, cancelSpeech, hca, hws, hexc, List.erase_cons_head]

/-- Witness for C9: the effect of one pause on the concrete world where audio
element 5 is playing. -/
theorem pauseAudio_witness :
    (wPlaying.st.isWebSpeech = false ∧ wPlaying.st.currentAudio = some 5 ∧
      wPlaying.liveRemote = [5]) ∧
    (pauseAudio wPlaying).st.isPlaying = false ∧
    (pauseAudio wPlaying).st.currentAudio = none :=
  ⟨⟨by decide, by decide, by decide⟩,
   (pauseAudio_idempotent_effect wPlaying 5 (by decide) (by decide) (by decide)).2.1,
   (pauseAudio_idempotent_effect wPlaying 5 (by decide) (by decide) (by decide)).2.2.1⟩

/-! ## C1 — auto-advance across a silent panel -/

/-- C1 counterexample: in the `oNullSlot` run (`panelAudio = [some (remote 10),
none, some (remote 12)]`), playing panel 0 and letting its audio complete
advances the index to the silent panel 1, where the scheduled
`playCurrentPanelAudio` is a no-op: no handle starts, no further advance to
panel 2 occurs, and the playing flag is left stuck at `true` — playback halts
on the null slot instead of skipping it. -/
theorem silent_panel_halts_counterexample :
    wNullSlot.st.panelAudio = [some (.remote 10), none, some (.remote 12)] ∧
    (playCurrentPanelAudio wNullSlot).liveRemote = [0] ∧
    (playCurrentPanelAudio wNullSlot).st.isPlaying = true ∧
    (playCurrentPanelAudio (audioEnded (playCurrentPanelAudio wNullSlot) 0)).st.currentPanel = 1 ∧
    (playCurrentPanelAudio (audioEnded (playCurrentPanelAudio wNullSlot) 0)).liveRemote = [] ∧
    (playCurrentPanelAudio (audioEnded (playCurrentPanelAudio wNullSlot) 0)).liveSpeech = 0 ∧
    (playCurrentPanelAudio (audioEnded (playCurrentPanelAudio wNullSlot) 0)).st.currentAudio = none ∧
    (playCurrentPanelAudio (audioEnded (playCurrentPanelAudio wNullSlot) 0)).st.isPlaying = true := by
  decide

/-- C1 (amended): when the active audio element completes naturally, the
handler increments the panel index and the delayed play starts the next
panel handle when that slot holds a remote URL; when no next slot exists it
sets `playing = false` and stops. But when the next slot is null the delayed
play is the identity: the index advances by exactly one, no handle starts, no
second advance occurs, and the playing flag keeps its previous value —
playback halts on the silent panel rather than skipping it. -/
theorem advance_on_completion_cases (w : World) (h : Nat)
    (_hca : w.st.currentAudio = some h)
    (hlive : w.liveRemote = [h]) :
    (¬ w.st.currentPanel < w.st.panelAudio.length - 1 →
      (audioEnded w h).st.isPlaying = false ∧
      (audioEnded w h).st.currentAudio = none ∧
      (audioEnded w h).liveRemote = [] ∧
      (audioEnded w h).st.currentPanel = w.st.currentPanel) ∧
    (∀ u : Nat, w.st.currentPanel < w.st.panelAudio.length - 1 →
      w.st.panelAudio.getD (w.st.currentPanel + 1) none = some (.remote u) →
      (playCurrentPanelAudio (audioEnded w h)).st.currentPanel = w.st.currentPanel + 1 ∧
      (playCurrentPanelAudio (audioEnded w h)).st.currentAudio = some w.nextId ∧
      (playCurrentPanelAudio (audioEnded w h)).liveRemote = [w.nextId] ∧
      (playCurrentPanelAudio (audioEnded w h)).st.isPlaying = true) ∧
    (w.st.currentPanel < w.st.panelAudio.length - 1 →
      w.st.panelAudio.getD (w.st.currentPanel + 1) none = none →
      playCurrentPanelAudio (audioEnded w h) = audioEnded w h ∧
      (audioEnded w h).st.currentPanel = w.st.currentPanel + 1 ∧
      (audioEnded w h).st.currentAudio = none ∧
      (audioEnded w h).liveRemote = [] ∧
      (audioEnded w h).st.isPlaying = w.st.isPlaying) := by
  refine ⟨?_, ?_, ?_⟩
  · intro hnolt
    simp [audioEnded, advanceToNextPanelAndPlay, hnolt, hlive, List.erase_cons_head]
  · intro u hlt hslot
    rw [List.getD_eq_getElem?_getD] at hslot
    simp [audioEnded, advanceToNextPanelAndPlay, playCurrentPanelAudio, stopCurrent,
      startRemote, hlt, hslot, hlive, List.erase_cons_head]
  · intro hlt hslot
    rw [List.getD_eq_getElem?_getD] at hslot
    simp [audioEnded, advanceToNextPanelAndPlay, playCurrentPanelAudio, stopCurrent,
      hlt, hslot, hlive, List.erase_cons_head]

/-- Witness for C1: the silent-slot case of the amended statement, applied to
the concrete run where panel 0 is playing as element 0. -/
theorem advance_on_completion_witness :
    (playCurrentPanelAudio wNullSlot).st.currentAudio = some 0 ∧
    (playCurrentPanelAudio wNullSlot).liveRemote = [0] ∧
    playCurrentPanelAudio (audioEnded (playCurrentPanelAudio wNullSlot) 0) =
      audioEnded (playCurrentPanelAudio wNullSlot) 0 :=
  ⟨by decide, by decide,
   ((advance_on_completion_cases (playCurrentPanelAudio wNullSlot) 0 (by decide)
       (by decide)).2.2 (by decide) (by decide)).1⟩

/-! ## C10 — start over discards but never stops audio -/

/-- C10: the `Start a New Comic` handler replaces the whole application state
by the initial state (`step = input`, `currentPanel = 0`, `isPlaying = false`,
`currentAudio = null`, empty `panelImages` and `panelAudio`, null `storyboard`
and drawing — all pinned by `initAppState`), while a currently live audio
handle is only dereferenced, never paused or stopped: the live media sets are
untouched, so handle `h` keeps playing. -/
theorem startOver_resets_without_stopping (w : World) (h : Nat)
    (hlive : h ∈ w.liveRemote) :
    (startOverClick w).st = initAppState ∧
    h ∈ (startOverClick w).liveRemote ∧
    (startOverClick w).liveRemote = w.liveRemote ∧
    (startOverClick w).liveSpeech = w.liveSpeech :=
  ⟨rfl, hlive, rfl, rfl⟩

/-- Witness for C10: starting over while element 5 plays leaves it live. -/
theorem startOver_witness :
    5 ∈ wPlaying.liveRemote ∧
    ((startOverClick wPlaying).st = initAppState ∧
      5 ∈ (startOverClick wPlaying).liveRemote ∧
      (startOverClick wPlaying).liveRemote = wPlaying.liveRemote ∧
      (startOverClick wPlaying).liveSpeech = wPlaying.liveSpeech) :=
  ⟨by decide, startOver_resets_without_stopping wPlaying 5 (by decide)⟩

end ComicGen

namespace ComicGen

/-! ## C2 — exclusive ownership of the active audio handle -/

theorem exclusive_cases (w : World) (hexc : ExclusiveAudio w) :
    w.liveRemote = [] ∨ ∃ g, w.liveRemote = [g] ∧ w.st.currentAudio = some g := by
  obtain ⟨hlen, hall⟩ := hexc
  rcases hl : w.liveRemote with _ | ⟨g, gs⟩
  · exact Or.inl rfl
  · rcases gs with _ | ⟨g', gs'⟩
    · exact Or.inr ⟨g, rfl, hall g (by rw [hl]; simp)⟩
    · rw [hl] at hlen
      simp at hlen

theorem current_none_nil (w : World) (hexc : ExclusiveAudio w)
    (hca : w.st.currentAudio = none) : w.liveRemote = [] := by
  rcases exclusive_cases w hexc with hl | ⟨g, hl, hc⟩
  · exact hl
  · rw [hca] at hc
    cases hc

theorem erase_current_nil (w : World) (hexc : ExclusiveAudio w) (h : Nat)
    (hca : w.st.currentAudio = some h) : w.liveRemote.erase h = [] := by
  rcases exclusive_cases w hexc with hl | ⟨g, hl, hc⟩
  · rw [hl]
    rfl
  · rw [hca] at hc
    injection hc with hv
    subst hv
    rw [hl]
    exact List.erase_cons_head h []

theorem erase_mem_nil (w : World) (hexc : ExclusiveAudio w) (h : Nat)
    (hmem : h ∈ w.liveRemote) : w.liveRemote.erase h = [] := by
  rcases exclusive_cases w hexc with hl | ⟨g, hl, hc⟩
  · rw [hl] at hmem
    cases hmem
  · rw [hl] at hmem
    obtain rfl : h = g := by simpa using hmem
    rw [hl]
    exact List.erase_cons_head h []

theorem stopCurrent_clears (w : World) (hexc : ExclusiveAudio w) :
    (stopCurrent w).liveRemote = [] ∧ (stopCurrent w).st.currentAudio = none ∧
    (stopCurrent w).st.panelAudio = w.st.panelAudio ∧
    (stopCurrent w).liveSpeech = w.liveSpeech := by
  unfold stopCurrent
  rcases hca : w.st.currentAudio with _ | h
  · exact ⟨current_none_nil w hexc hca, hca, rfl, rfl⟩
  · exact ⟨erase_current_nil w hexc h hca, rfl, rfl, rfl⟩

theorem stopForNav_clears (w : World) (hexc : ExclusiveAudio w) :
    (stopForNav w).liveRemote = [] ∧ (stopForNav w).st.currentAudio = none ∧
    (stopForNav w).st.panelAudio = w.st.panelAudio ∧
    (stopForNav w).liveSpeech = w.liveSpeech := by
  unfold stopForNav
  rcases hca : w.st.currentAudio with _ | h
  · exact ⟨current_none_nil w hexc hca, hca, rfl, rfl⟩
  · exact ⟨erase_current_nil w hexc h hca, rfl, rfl, rfl⟩

theorem play_inv (w : World) (hinv : PbInv w) : PbInv (playCurrentPanelAudio w) := by
  obtain ⟨hA, hB, hexc⟩ := hinv
  obtain ⟨hl0, hc0, hpa0, hs0⟩ := stopCurrent_clears w hexc
  unfold playCurrentPanelAudio
  rcases hu : w.st.panelAudio.getD w.st.currentPanel none with _ | url
  · exact ⟨hA, hB, hexc⟩
  · have hmem : (some url) ∈ w.st.panelAudio := by
      rw [List.getD_eq_getElem?_getD] at hu
      rcases hq : w.st.panelAudio[w.st.currentPanel]? with _ | a
      · rw [hq] at hu
        cases hu
      · rw [hq] at hu
        simp at hu
        rw [hu] at hq
        exact List.getElem?_mem hq
    have hurl : url ≠ AudioUrl.webspeech := by
      intro he
      exact hA (some url) hmem (by rw [he])
    cases url with
    | webspeech => exact absurd rfl hurl
    | remote u =>
      refine ⟨?_, ?_, ?_, ?_⟩
      · intro a ha
        apply hA
        simpa [startRemote, hpa0] using ha
      · simpa [startRemote, hs0] using hB
      · simp [startRemote, hl0]
      · intro g hg
        simp [startRemote, hl0] at hg
        simp [startRemote, hg]

theorem cancelSpeech_parts (w : World) :
    (cancelSpeech w).st = w.st ∧ (cancelSpeech w).liveRemote = w.liveRemote := by
  unfold cancelSpeech
  split
  · exact ⟨rfl, rfl⟩
  · exact ⟨rfl, rfl⟩

theorem cancelSpeech_idle (w : World) (hB : w.liveSpeech = 0) :
    (cancelSpeech w).liveSpeech = 0 := by
  unfold cancelSpeech
  split
  · rfl
  · exact hB

theorem pause_inv (w : World) (hinv : PbInv w) : PbInv (pauseAudio w) := by
  obtain ⟨hA, hB, hexc⟩ := hinv
  obtain ⟨hcsA, hcsl⟩ := cancelSpeech_parts w
  have hcs0 := cancelSpeech_idle w hB
  unfold pauseAudio
  rcases hca : w.st.currentAudio with _ | h
  · refine ⟨?_, hcs0, ?_, ?_⟩
    · rw [hcsA]
      exact hA
    · rw [hcsl]
      exact hexc.1
    · intro g hg
      rw [hcsl] at hg
      rw [hcsA]
      exact hexc.2 g hg
  · have her : w.liveRemote.erase h = [] := erase_current_nil w hexc h hca
    refine ⟨?_, hcs0, ?_, ?_⟩
    · intro a ha
      apply hA
      have hpa : (cancelSpeech w).st.panelAudio = w.st.panelAudio := by rw [hcsA]
      exact hpa ▸ ha
    · show ((cancelSpeech w).liveRemote.erase h).length ≤ 1
      rw [hcsl, her]
      decide
    · intro g hg
      have hg2 : g ∈ (cancelSpeech w).liveRemote.erase h := hg
      rw [hcsl, her] at hg2
      cases hg2

theorem setPanel_inv (w : World) (i : Nat) (hinv : PbInv w) : PbInv (setPanel w i) := by
  obtain ⟨hA, hB, hlen, hall⟩ := hinv
  exact ⟨hA, hB, hlen, hall⟩

theorem next_inv (w : World) (hinv : PbInv w) : PbInv (nextPanel w) := by
  obtain ⟨hA, hB, hexc⟩ := hinv
  unfold nextPanel
  split
  · obtain ⟨hl0, hc0, hpa0, hs0⟩ := stopForNav_clears w hexc
    have hset : PbInv (setPanel (stopForNav w) (w.st.currentPanel + 1)) := by
      refine ⟨?_, ?_, ?_, ?_⟩
      · intro a ha
        apply hA
        simpa [setPanel, hpa0] using ha
      · simpa [setPanel, hs0] using hB
      · simp [setPanel, hl0]
      · intro g hg
        simp [setPanel, hl0] at hg
    split
    · exact play_inv _ hset
    · exact hset
  · exact ⟨hA, hB, hexc⟩

theorem prev_inv (w : World) (hinv : PbInv w) : PbInv (previousPanel w) := by
  obtain ⟨hA, hB, hexc⟩ := hinv
  unfold previousPanel
  split
  · obtain ⟨hl0, hc0, hpa0, hs0⟩ := stopForNav_clears w hexc
    have hset : PbInv (setPanel (stopForNav w) (w.st.currentPanel - 1)) := by
      refine ⟨?_, ?_, ?_, ?_⟩
      · intro a ha
        apply hA
        simpa [setPanel, hpa0] using ha
      · simpa [setPanel, hs0] using hB
      · simp [setPanel, hl0]
      · intro g hg
        simp [setPanel, hl0] at hg
    split
    · exact play_inv _ hset
    · exact hset
  · exact ⟨hA, hB, hexc⟩

theorem toggle_inv (w : World) (hinv : PbInv w) : PbInv (toggleAudio w) := by
  unfold toggleAudio
  split
  · exact pause_inv w hinv
  · exact play_inv w hinv

theorem advance_inv (w : World) (hA : NoWebAudio w.st) (hB : w.liveSpeech = 0)
    (hl : w.liveRemote = []) : PbInv (advanceToNextPanelAndPlay w) := by
  unfold advanceToNextPanelAndPlay
  split
  · exact ⟨hA, hB, by simp [hl], fun g hg => by simp [hl] at hg⟩
  · exact ⟨hA, hB, by simp [hl], fun g hg => by simp [hl] at hg⟩

theorem ended_inv (w : World) (h : Nat) (hmem : h ∈ w.liveRemote) (hinv : PbInv w) :
    PbInv (audioEnded w h) := by
  obtain ⟨hA, hB, hexc⟩ := hinv
  exact advance_inv _ hA hB (erase_mem_nil w hexc h hmem)

theorem errored_inv (w : World) (hinv : PbInv w) : PbInv (audioErrored w) := by
  obtain ⟨hA, hB, hexc⟩ := hinv
  unfold audioErrored
  rcases hca : w.st.currentAudio with _ | h
  · have hl := current_none_nil w hexc hca
    exact ⟨hA, hB, by simp [hl], fun g hg => by simp [hl] at hg⟩
  · have hl := erase_current_nil w hexc h hca
    exact ⟨hA, hB, by simp [hl], fun g hg => by simp [hl] at hg⟩

theorem replay_inv (w : World) (hinv : PbInv w) : PbInv (replayFullStory w) := by
  obtain ⟨hA, hB, hexc⟩ := hinv
  unfold replayFullStory
  rcases hca : w.st.currentAudio with _ | h
  · have hl := current_none_nil w hexc hca
    exact ⟨hA, hB, by simp [hl], fun g hg => by simp [hl] at hg⟩
  · have hl := erase_current_nil w hexc h hca
    exact ⟨hA, hB, by simp [hl], fun g hg => by simp [hl] at hg⟩

theorem pbStep_inv {w w' : World} (hs : PbStep w w') (hinv : PbInv w) : PbInv w' := by
  cases hs with
  | toggle => exact toggle_inv w hinv
  | play => exact play_inv w hinv
  | pause => exact pause_inv w hinv
  | next => exact next_inv w hinv
  | prev => exact prev_inv w hinv
  | replay => exact replay_inv w hinv
  | ended h hmem => exact ended_inv w h hmem hinv
  | errored => exact errored_inv w hinv
  | utterEnded hpos =>
    exact absurd hpos (by rw [hinv.2.1]; exact lt_irrefl 0)

/-- C2 (amended): in playback states whose audio slots contain no web-speech
fallback handle, with the synthesizer idle and audio elements exclusively
owned, every sequence of playback operations (play, pause, next, previous,
replay, natural-completion advance and the other media events) preserves that
invariant, so at most one audio handle is active at every reachable state and
each start is preceded by the stop of the previously referenced element. The
unrestricted claim — covering on-device web-speech handles — is refuted by
the counterexample: a speaking utterance is not cancelled by `nextPanel` or by
starting a new audio element. -/
theorem playback_exclusive (w0 w : World) (hinv : PbInv w0)
    (hreach : PbReachable w0 w) :
    PbInv w ∧ activeHandles w ≤ 1 := by
  have hw : PbInv w := by
    induction hreach with
    | refl => exact hinv
    | tail hr hs ih => exact pbStep_inv hs ih
  refine ⟨hw, ?_⟩
  obtain ⟨_, hB, hlen, _⟩ := hw
  unfold activeHandles
  omega

/-- Witness for C2: the invariant at the all-remote run, transported across a
pause step. -/
theorem playback_exclusive_witness :
    PbInv wAllGood ∧
    (PbInv (pauseAudio wAllGood) ∧ activeHandles (pauseAudio wAllGood) ≤ 1) :=
  ⟨by decide,
   playback_exclusive wAllGood (pauseAudio wAllGood) (by decide)
     (PbReachable.tail PbReachable.refl (PbStep.pause wAllGood))⟩

/-- C2 counterexample: from the reachable final-view state of the
`oMixedSpeech` run (`panelAudio = [some webspeech, some (remote 20)]`),
pressing play speaks the web-speech utterance of panel 0 (one active handle),
and pressing next — with `currentAudio` null — skips the stop block and
starts a new audio element while the utterance is still held by the
synthesizer: two handles are active at once, and the new handle started
without stopping the previous one. -/
theorem two_active_handles_counterexample :
    wMixedSpeech.st.panelAudio = [some .webspeech, some (.remote 20)] ∧
    activeHandles wMixedSpeech = 0 ∧
    activeHandles (toggleAudio wMixedSpeech) = 1 ∧
    activeHandles (nextPanel (toggleAudio wMixedSpeech)) = 2 ∧
    (nextPanel (toggleAudio wMixedSpeech)).liveSpeech = 1 ∧
    (nextPanel (toggleAudio wMixedSpeech)).liveRemote = [0] := by
  decide

end ComicGen

namespace ComicGen.V0

/-- C6: in the grid-layout client variant, a failure of the layout-composition
call is NOT absorbed: with planning, all four panel illustrations and all
narration succeeded, an HTTP 500 from `/api/grid` is caught by the blanket
`catch` of `handlePlanAndRenderComic`, which sends the run back to the `input`
step with the raw error — the terminal presentation state is never reached
even though `panelImages` is fully intact and the final view contains a
fallback grid-rendering branch for exactly this situation (dead code on this
path). -/
theorem layout_failure_aborts_to_input :
    (handlePlanAndRenderComic stWithCards oGridFail).step = AppStep.input ∧
    (handlePlanAndRenderComic stWithCards oGridFail).error = some "Fal grid 500" ∧
    (handlePlanAndRenderComic stWithCards oGridFail).finalComicImage = none ∧
    (handlePlanAndRenderComic stWithCards oGridFail).panelImages =
      [some imgP, some imgP, some imgP, some imgP] ∧
    (handlePlanAndRenderComic stWithCards oGridFail).step ≠ AppStep.final_comic := by
  decide

end ComicGen.V0
